import Mathlib

/-!
Verification of the fx outcome library.

The library represents an outcome as a two-slot tuple: a success is
written [null, value] and a failure is written [error, null], with the
error slot (index 0) compared against the null sentinel as the sole
discriminant.  We embed that union type as the inductive FX.Result with
constructors ok and err; the tuple slots are recovered by the
projections slotErr and slotVal, where Option.none stands for null.
Error types are the library types, which never themselves contain the
null sentinel.  Raising a JavaScript exception is embedded as the error
channel of Except; a promise is embedded as AsyncComp, a computation
that has either resolved with a value or rejected with a thrown value.
-/

namespace FX

/-- The Result type of src/types.ts: Success R = [null, R],
Failure E = [E, null]. -/
inductive Result (R E : Type) where
  | ok : R → Result R E
  | err : E → Result R E
  deriving DecidableEq, Repr

/-- The error slot, index 0 of the tuple encoding (none = null). -/
def slotErr {R E : Type} : Result R E → Option E
  | .ok _ => none
  | .err e => some e

/-- The value slot, index 1 of the tuple encoding (none = null). -/
def slotVal {R E : Type} : Result R E → Option R
  | .ok v => some v
  | .err _ => none

/-- map of src/transform.ts: if (error !== null) return err(error);
return ok(fn(value)). -/
def map {R E T : Type} (result : Result R E) (f : R → T) : Result T E :=
  match result with
  | .err e => .err e
  | .ok v => .ok (f v)

/-- andThen of src/transform.ts: if (error !== null) return err(error);
return fn(value). -/
def andThen {R E T : Type} (result : Result R E) (f : R → Result T E) :
    Result T E :=
  match result with
  | .err e => .err e
  | .ok v => f v

/-- mapError of src/transform.ts: if (error === null) return ok(value);
return err(fn(error)). -/
def mapError {R E F : Type} (result : Result R E) (f : E → F) : Result R F :=
  match result with
  | .ok v => .ok v
  | .err e => .err (f e)

/-- orElse of src/transform.ts: if (error === null) return ok(value);
return fn(error). -/
def orElse {R E : Type} (result : Result R E) (f : E → Result R E) :
    Result R E :=
  match result with
  | .ok v => .ok v
  | .err e => f e

/-- unwrap of src/transform.ts: if (error !== null) throw error;
return value.  The thrown exception is the Except.error channel. -/
def unwrap {R E : Type} (result : Result R E) : Except E R :=
  match result with
  | .err e => .error e
  | .ok v => .ok v

/-- unwrapOr of src/transform.ts: if (error !== null) return defaultValue;
return value.  Total: every path returns a plain R. -/
def unwrapOr {R E : Type} (result : Result R E) (defaultValue : R) : R :=
  match result with
  | .err _ => defaultValue
  | .ok v => v

/-- unwrapOrElse of src/transform.ts: if (error !== null) return fn(error);
return value.  Total: every path returns a plain R. -/
def unwrapOrElse {R E : Type} (result : Result R E) (f : E → R) : R :=
  match result with
  | .err e => f e
  | .ok v => v

/-- isOk of src/transform.ts: result[0] === null. -/
def isOk {R E : Type} (result : Result R E) : Bool :=
  (slotErr result).isNone

/-- isErr of src/transform.ts: result[0] !== null. -/
def isErr {R E : Type} (result : Result R E) : Bool :=
  (slotErr result).isSome

/-- TaggedError of src/types.ts: a record of a string discriminant tag
and the wrapped error. -/
structure TaggedError (E : Type) where
  tag : String
  error : E
  deriving DecidableEq, Repr

/-- catchByTag of src/transform.ts: if (error === null) return ok(value);
if (error.tag === tag) return handler(error.error); return err(error). -/
def catchByTag {R E : Type} (result : Result R (TaggedError E)) (tag : String)
    (handler : E → Result R (TaggedError E)) : Result R (TaggedError E) :=
  match result with
  | .ok v => .ok v
  | .err e => if e.tag = tag then handler e.error else .err e

/-- catchByTags of src/transform.ts: if (error === null) return ok(value);
if (tags.includes(error.tag)) return handler(error.error);
return err(error). -/
def catchByTags {R E : Type} (result : Result R (TaggedError E))
    (tags : List String) (handler : E → Result R (TaggedError E)) :
    Result R (TaggedError E) :=
  match result with
  | .ok v => .ok v
  | .err e => if e.tag ∈ tags then handler e.error else .err e

/-- all of src/combinators.ts: iterate the inputs in index order, return
err(error) at the first entry whose error slot is non-null, otherwise
collect the values in order and return ok(values).  The indexed loop is
rendered as structural recursion on the list. -/
def all {R E : Type} : List (Result R E) → Result (List R) E
  | [] => .ok []
  | r :: rest =>
    match r with
    | .err e => .err e
    | .ok v =>
      match all rest with
      | .err e => .err e
      | .ok vs => .ok (v :: vs)

/-- The loop body of any in src/combinators.ts, carrying the current
entry: a success returns immediately; a failure is kept as lastError
only until the next entry is examined, so only the last failure of an
all-failure run survives. -/
def anyGo {R E : Type} : Result R E → List (Result R E) → Result R E
  | .ok v, _ => .ok v
  | .err e, [] => .err e
  | .err _, r :: rest => anyGo r rest

/-- any of src/combinators.ts: throws Error("Cannot call any() on empty
array") on an empty input (the thrown message is the Except.error
channel), otherwise runs the first-success / last-error loop. -/
def any {R E : Type} (results : List (Result R E)) :
    Except String (Result R E) :=
  match results with
  | [] => .error "Cannot call any() on empty array"
  | r :: rest => .ok (anyGo r rest)

/-- zip of src/combinators.ts: check result1 error slot, then result2,
returning the first non-null error, else ok([value1, value2]). -/
def zip {R1 R2 E : Type} (result1 : Result R1 E) (result2 : Result R2 E) :
    Result (R1 × R2) E :=
  match result1 with
  | .err e => .err e
  | .ok v1 =>
    match result2 with
    | .err e => .err e
    | .ok v2 => .ok (v1, v2)

/-- zip3 of src/combinators.ts: check the three error slots left to
right, returning the first non-null error, else the triple of values. -/
def zip3 {R1 R2 R3 E : Type} (result1 : Result R1 E) (result2 : Result R2 E)
    (result3 : Result R3 E) : Result (R1 × R2 × R3) E :=
  match result1 with
  | .err e => .err e
  | .ok v1 =>
    match result2 with
    | .err e => .err e
    | .ok v2 =>
      match result3 with
      | .err e => .err e
      | .ok v3 => .ok (v1, v2, v3)

/-- A JavaScript promise that has settled: it either resolved with a
value of type α or rejected with a thrown value of type T. -/
inductive AsyncComp (T α : Type) where
  | resolved : α → AsyncComp T α
  | rejected : T → AsyncComp T α
  deriving DecidableEq, Repr

/-- promise.then with a plain (non-throwing, non-promise) callback:
a resolution is mapped, a rejection propagates unchanged. -/
def thenMap {T α β : Type} (p : AsyncComp T α) (f : α → β) : AsyncComp T β :=
  match p with
  | .resolved a => .resolved (f a)
  | .rejected t => .rejected t

/-- Promise.all on an ordered list of settled promises: resolves with
the list of values in input order when every input resolved.  (The real
Promise.all rejects with the temporally first rejection; timing is not
modelled, and the claims below only use the all-resolved case, where no
tie-break arises.) -/
def promiseAll {T α : Type} : List (AsyncComp T α) → AsyncComp T (List α)
  | [] => .resolved []
  | .rejected t :: _ => .rejected t
  | .resolved a :: ps =>
    match promiseAll ps with
    | .resolved as => .resolved (a :: as)
    | .rejected t => .rejected t

/-- allAsync of src/combinators.ts:
Promise.all(results).then(resolvedResults => all(resolvedResults)). -/
def allAsync {R E T : Type} (results : List (AsyncComp T (Result R E))) :
    AsyncComp T (Result (List R) E) :=
  thenMap (promiseAll results) all

/-- UnhandledError of src/errors.ts: an Error subclass with fixed name
and message carrying the original raised value untouched. -/
structure UnhandledError (T : Type) where
  name : String
  message : String
  originalError : T
  deriving DecidableEq, Repr

/-- new UnhandledError(originalError): super("Unhandled error") sets the
message, the constructor body sets name and originalError. -/
def mkUnhandledError {T : Type} (originalError : T) : UnhandledError T :=
  { name := "UnhandledError", message := "Unhandled error",
    originalError := originalError }

/-- The outcome of invoking a JavaScript callable: it either returned a
value of type α or threw a value of type T. -/
inductive JsCall (T α : Type) where
  | ret : α → JsCall T α
  | throws : T → JsCall T α
  deriving DecidableEq, Repr

/-- The value a callable wrapped by fn may return: a synchronous Result
or a promise of one (the instanceof Promise branch). -/
inductive RetVal (T R E : Type) where
  | sync : Result R E → RetVal T R E
  | async : AsyncComp T (Result R E) → RetVal T R E
  deriving DecidableEq, Repr

/-- The TypeScript union E | UnhandledError, embedded as a sum; at
runtime the left injection is the identity. -/
def widenErr {R E T : Type} : Result R E → Result R (E ⊕ UnhandledError T)
  | .ok v => .ok v
  | .err e => .err (Sum.inl e)

/-- fn of src/fn.ts: call the wrapped callable inside try/catch; a
synchronous throw becomes err(new UnhandledError(error)); a returned
promise gets .catch(error => err(new UnhandledError(error))); a
synchronous Result is returned as is (widened to the union error
type).  The wrapper itself only constructs values, so its own outcome
is always JsCall.ret. -/
def fn {A T R E : Type} (callable : A → JsCall T (RetVal T R E)) (args : A) :
    JsCall T (RetVal T R (E ⊕ UnhandledError T)) :=
  match callable args with
  | .throws t => .ret (.sync (.err (Sum.inr (mkUnhandledError t))))
  | .ret (.sync r) => .ret (.sync (widenErr r))
  | .ret (.async p) =>
    .ret (.async (match p with
      | .resolved r => .resolved (widenErr r)
      | .rejected t => .resolved (.err (Sum.inr (mkUnhandledError t)))))

/-- Whether a call outcome is a throw: used to state that the wrapper
never raises. -/
def raises {T α : Type} : JsCall T α → Bool
  | .ret _ => false
  | .throws _ => true

/-- Whether a returned value contains a rejected promise: used to state
that the wrapper's pending results never reject. -/
def pendingRejects {T R E : Type} : RetVal T R E → Bool
  | .sync _ => false
  | .async (.resolved _) => false
  | .async (.rejected _) => true

/-- Claim C1: for every failure outcome and every transformer, map and
andThen return the same failure unchanged, the transformer is never
invoked on a failure input (the result is independent of it), and the
transformer is applied exactly to the success variant. -/
theorem claim1_map_chain_short_circuit {R E T : Type} (e : E) (g : R → T)
    (gc : R → Result T E) :
    map (Result.err e) g = Result.err e ∧
    andThen (Result.err e) gc = Result.err e ∧
    (∀ g2 : R → T, map (Result.err e) g2 = map (Result.err e) g) ∧
    (∀ gc2 : R → Result T E,
      andThen (Result.err e) gc2 = andThen (Result.err e) gc) ∧
    (∀ v : R, map (Result.ok v : Result R E) g = Result.ok (g v) ∧
      andThen (Result.ok v : Result R E) gc = gc v) :=
  ⟨rfl, rfl, fun _ => rfl, fun _ => rfl, fun _ => ⟨rfl, rfl⟩⟩

/-- Claim C3: unwrap of a success returns the value without raising and
unwrap of a failure raises exactly the contained error. -/
theorem claim3_unwrap_roundtrip {R E : Type} (v : R) (e : E) :
    unwrap (Result.ok v : Result R E) = Except.ok v ∧
    unwrap (Result.err e : Result R E) = Except.error e :=
  ⟨rfl, rfl⟩

/-- Claim C6: unwrapOr and unwrapOrElse are total (they return a plain
value on every outcome, with no exception channel): the success value on
success, and the default (resp. the handler applied to the error) on
every failure. -/
theorem claim6_unwrapOr_total {R E : Type} (v : R) (e : E) (d : R)
    (f : E → R) :
    unwrapOr (Result.ok v : Result R E) d = v ∧
    unwrapOr (Result.err e : Result R E) d = d ∧
    unwrapOrElse (Result.ok v : Result R E) f = v ∧
    unwrapOrElse (Result.err e : Result R E) f = f e :=
  ⟨rfl, rfl, rfl, rfl⟩

/-- Claim C8: zip and zip3 evaluate left to right and return the first
failure in that order, else success wrapping the tuple of values; in
particular zip of two failures returns the first. -/
theorem claim8_zip_first_failure {R1 R2 R3 E : Type} (a : R1) (b : R2)
    (c : R3) (e1 e2 e3 : E) :
    (∀ r2 : Result R2 E,
      zip (Result.err e1 : Result R1 E) r2 = Result.err e1) ∧
    zip (Result.err e1 : Result R1 E) (Result.err e2 : Result R2 E) =
      Result.err e1 ∧
    zip (Result.ok a : Result R1 E) (Result.err e2 : Result R2 E) =
      Result.err e2 ∧
    zip (Result.ok a : Result R1 E) (Result.ok b : Result R2 E) =
      Result.ok (a, b) ∧
    (∀ (r2 : Result R2 E) (r3 : Result R3 E),
      zip3 (Result.err e1 : Result R1 E) r2 r3 = Result.err e1) ∧
    (∀ r3 : Result R3 E,
      zip3 (Result.ok a : Result R1 E) (Result.err e2 : Result R2 E) r3 =
        Result.err e2) ∧
    zip3 (Result.ok a : Result R1 E) (Result.ok b : Result R2 E)
      (Result.err e3 : Result R3 E) = Result.err e3 ∧
    zip3 (Result.ok a : Result R1 E) (Result.ok b : Result R2 E)
      (Result.ok c : Result R3 E) = Result.ok (a, b, c) :=
  ⟨fun _ => rfl, rfl, rfl, rfl, fun _ _ => rfl, fun _ => rfl, rfl, rfl⟩

/-- Claim C10: isOk and isErr are exact Boolean complements on every
result, both decided solely by whether the error slot (index 0 of the
tuple encoding) is the null sentinel, so exactly one of them holds for
every result, including those built by ok and err. -/
theorem claim10_isOk_isErr_complement {R E : Type} (r : Result R E) (v : R)
    (e : E) :
    isErr r = !isOk r ∧
    isOk r = (slotErr r).isNone ∧
    isErr r = (slotErr r).isSome ∧
    (isOk r || isErr r) = true ∧
    (isOk r && isErr r) = false ∧
    slotErr (Result.ok v : Result R E) = none ∧
    slotErr (Result.err e : Result R E) = some e ∧
    isOk (Result.ok v : Result R E) = true ∧
    isErr (Result.err e : Result R E) = true := by
  cases r <;>
    exact ⟨rfl, rfl, rfl, rfl, rfl, rfl, rfl, rfl, rfl⟩

/-- all maps a list of pure successes to the success of the value list. -/
theorem all_map_ok {R E : Type} (vs : List R) :
    all (vs.map Result.ok : List (Result R E)) = Result.ok vs := by
  induction vs with
  | nil => rfl
  | cons v vs ih => simp [all, ih]

/-- all returns the first failure: a success prefix followed by a
failure yields that failure, whatever follows. -/
theorem all_first_err {R E : Type} (vs : List R) (e : E)
    (post : List (Result R E)) :
    all (vs.map Result.ok ++ Result.err e :: post) = Result.err e := by
  induction vs with
  | nil => rfl
  | cons v vs ih => simp [all, ih]

/-- Claim C4: all iterates in position order and returns the first
failure encountered; if every entry is a success it returns success
wrapping the values in original order; the empty list yields success
of the empty list. -/
theorem claim4_all_first_failure {R E : Type} :
    all ([] : List (Result R E)) = Result.ok [] ∧
    (∀ vs : List R,
      all (vs.map Result.ok : List (Result R E)) = Result.ok vs) ∧
    (∀ (vs : List R) (e : E) (post : List (Result R E)),
      all (vs.map Result.ok ++ Result.err e :: post) = Result.err e) :=
  ⟨rfl, all_map_ok, all_first_err⟩

/-- The any loop returns the first success: any run of failures before
a success is skipped, whatever state the loop carries. -/
theorem anyGo_first_ok {R E : Type} (es : List E) (e0 : E) (v : R)
    (post : List (Result R E)) :
    anyGo (Result.err e0) (es.map Result.err ++ Result.ok v :: post) =
      Result.ok v := by
  induction es generalizing e0 with
  | nil => simp [anyGo]
  | cons e es ih => simpa [anyGo] using ih e

/-- The any loop on an all-failure list returns the last failure. -/
theorem anyGo_last_err {R E : Type} (es : List E) (e0 e : E) :
    anyGo (Result.err e0 : Result R E)
      (es.map Result.err ++ [Result.err e]) = Result.err e := by
  induction es generalizing e0 with
  | nil => rfl
  | cons e1 es ih => simpa [anyGo] using ih e1

/-- Claim C5: any returns the first success in order; if every entry is
a failure it returns the last failure; on the empty list it throws
(fails fast) instead of returning an outcome. -/
theorem claim5_any_first_success_last_error {R E : Type} :
    any ([] : List (Result R E)) =
      Except.error "Cannot call any() on empty array" ∧
    (∀ (es : List E) (v : R) (post : List (Result R E)),
      any (es.map Result.err ++ Result.ok v :: post) =
        Except.ok (Result.ok v)) ∧
    (∀ es : List E, ∀ e : E,
      any (es.map Result.err ++ [Result.err e] : List (Result R E)) =
        Except.ok (Result.err e)) := by
  refine ⟨rfl, ?_, ?_⟩
  · intro es v post
    cases es with
    | nil => simp [any, anyGo]
    | cons e es => simp [any, anyGo_first_ok]
  · intro es e
    cases es with
    | nil => rfl
    | cons e1 es => simp [any, anyGo_last_err]

/-- Promise.all of a list of resolved promises resolves with the list
of values in order. -/
theorem promiseAll_resolved {T α : Type} (as : List α) :
    promiseAll (as.map AsyncComp.resolved : List (AsyncComp T α)) =
      AsyncComp.resolved as := by
  induction as with
  | nil => rfl
  | cons a as ih => simp [promiseAll, ih]

/-- Claim C9: once every input has settled by resolving to an outcome,
allAsync resolves to exactly what the synchronous all returns on the
list of those outcomes. -/
theorem claim9_allAsync_refines_all {R E T : Type} (rs : List (Result R E)) :
    allAsync (rs.map AsyncComp.resolved : List (AsyncComp T (Result R E))) =
      AsyncComp.resolved (all rs) := by
  simp [allAsync, promiseAll_resolved, thenMap]

/-- Claim C7: catchByTag replaces a failure by the handler applied to
the wrapped error exactly when the tag matches the discriminant, and
otherwise passes the outcome through unchanged without invoking the
handler (the result is independent of it); catchByTags has the same
contract with matching decided by membership of the tag in the supplied
list, independent of the ordering of that list. -/
theorem claim7_catchByTag_contract {R E : Type} (v : R) (e : TaggedError E)
    (tag : String) (tags : List String)
    (handler : E → Result R (TaggedError E)) :
    catchByTag (Result.ok v) tag handler = Result.ok v ∧
    catchByTags (Result.ok v) tags handler = Result.ok v ∧
    (e.tag = tag → catchByTag (Result.err e) tag handler = handler e.error) ∧
    (e.tag ≠ tag → catchByTag (Result.err e) tag handler = Result.err e) ∧
    (e.tag ≠ tag → ∀ h2 : E → Result R (TaggedError E),
      catchByTag (Result.err e) tag handler =
        catchByTag (Result.err e) tag h2) ∧
    (e.tag ∈ tags →
      catchByTags (Result.err e) tags handler = handler e.error) ∧
    (e.tag ∉ tags →
      catchByTags (Result.err e) tags handler = Result.err e) ∧
    (e.tag ∉ tags → ∀ h2 : E → Result R (TaggedError E),
      catchByTags (Result.err e) tags handler =
        catchByTags (Result.err e) tags h2) ∧
    (∀ tags2 : List String, (∀ t : String, t ∈ tags ↔ t ∈ tags2) →
      ∀ r : Result R (TaggedError E),
        catchByTags r tags handler = catchByTags r tags2 handler) := by
  refine ⟨rfl, rfl, ?_, ?_, ?_, ?_, ?_, ?_, ?_⟩
  · intro h; simp [catchByTag, h]
  · intro h; simp [catchByTag, h]
  · intro h h2; simp [catchByTag, h]
  · intro h; simp [catchByTags, h]
  · intro h; simp [catchByTags, h]
  · intro h h2; simp [catchByTags, h]
  · intro tags2 hiff r
    cases r with
    | ok v2 => rfl
    | err e2 => simp only [catchByTags]; rw [if_congr (hiff e2.tag) rfl rfl]

/-- Witness for claim C7: concrete matching and non-matching tags, list
membership, and a reordered tag list. -/
theorem claim7_catchByTag_contract_witness :
    catchByTag (Result.err ⟨"A", 5⟩ : Result Nat (TaggedError Nat)) "A"
      (fun n => Result.ok (n + 1)) = Result.ok 6 ∧
    catchByTag (Result.err ⟨"B", 5⟩ : Result Nat (TaggedError Nat)) "A"
      (fun n => Result.ok (n + 1)) = Result.err ⟨"B", 5⟩ ∧
    catchByTags (Result.err ⟨"A", 5⟩ : Result Nat (TaggedError Nat))
      ["B", "A"] (fun n => Result.ok (n + 2)) = Result.ok 7 ∧
    catchByTags (Result.err ⟨"C", 5⟩ : Result Nat (TaggedError Nat))
      ["B", "A"] (fun n => Result.ok (n + 2)) = Result.err ⟨"C", 5⟩ ∧
    catchByTags (Result.err ⟨"A", 5⟩ : Result Nat (TaggedError Nat))
      ["A", "B"] (fun n => Result.ok (n + 2)) =
      catchByTags (Result.err ⟨"A", 5⟩ : Result Nat (TaggedError Nat))
        ["B", "A"] (fun n => Result.ok (n + 2)) := by
  refine ⟨?_, ?_, ?_, ?_, ?_⟩
  · exact ((claim7_catchByTag_contract 0 ⟨"A", 5⟩ "A" []
      (fun n => Result.ok (n + 1))).2.2.1 rfl).trans rfl
  · exact (claim7_catchByTag_contract 0 ⟨"B", 5⟩ "A" []
      (fun n => Result.ok (n + 1))).2.2.2.1 (by decide)
  · exact ((claim7_catchByTag_contract 0 ⟨"A", 5⟩ "X" ["B", "A"]
      (fun n => Result.ok (n + 2))).2.2.2.2.2.1 (by decide)).trans rfl
  · exact (claim7_catchByTag_contract 0 ⟨"C", 5⟩ "X" ["B", "A"]
      (fun n => Result.ok (n + 2))).2.2.2.2.2.2.1 (by decide)
  · exact (claim7_catchByTag_contract 0 ⟨"A", 5⟩ "X" ["A", "B"]
      (fun n => Result.ok (n + 2))).2.2.2.2.2.2.2.2 ["B", "A"]
      (fun t => (List.Perm.swap "B" "A" []).mem_iff)
      (Result.err ⟨"A", 5⟩)

/-- Claim C2: the fn wrapper never raises: a synchronous throw becomes a
returned failure wrapping UnhandledError of the thrown value; a rejected
promise resolves to such a failure; a returned outcome (synchronous, or
a promise resolving to one) is passed through unchanged up to the
inclusion into the widened error type; and no pending result of the
wrapper ever rejects. -/
theorem claim2_fn_never_raises {A T R E : Type}
    (callable : A → JsCall T (RetVal T R E)) (args : A) :
    raises (fn callable args) = false ∧
    (∀ rv, fn callable args = JsCall.ret rv → pendingRejects rv = false) ∧
    (∀ t, callable args = JsCall.throws t →
      fn callable args = JsCall.ret (RetVal.sync
        (Result.err (Sum.inr (mkUnhandledError t))))) ∧
    (∀ t, callable args = JsCall.ret (RetVal.async (AsyncComp.rejected t)) →
      fn callable args = JsCall.ret (RetVal.async (AsyncComp.resolved
        (Result.err (Sum.inr (mkUnhandledError t)))))) ∧
    (∀ r, callable args = JsCall.ret (RetVal.sync r) →
      fn callable args = JsCall.ret (RetVal.sync (widenErr r))) ∧
    (∀ r, callable args = JsCall.ret (RetVal.async (AsyncComp.resolved r)) →
      fn callable args = JsCall.ret (RetVal.async (AsyncComp.resolved
        (widenErr r)))) := by
  cases h : callable args with
  | throws t0 =>
    refine ⟨by simp [fn, h, raises], ?_, ?_, ?_, ?_, ?_⟩
    · intro rv hrv
      simp [fn, h] at hrv
      subst hrv
      rfl
    · intro t ht
      cases ht
      simp [fn, h]
    · intro t ht; simp at ht
    · intro r hr; simp at hr
    · intro r hr; simp at hr
  | ret rv =>
    cases rv with
    | sync r0 =>
      refine ⟨by simp [fn, h, raises], ?_, ?_, ?_, ?_, ?_⟩
      · intro rv2 hrv
        simp [fn, h] at hrv
        subst hrv
        rfl
      · intro t ht; simp at ht
      · intro t ht; simp at ht
      · intro r hr
        cases hr
        simp [fn, h]
      · intro r hr; simp at hr
    | async p =>
      cases p with
      | resolved r0 =>
        refine ⟨by simp [fn, h, raises], ?_, ?_, ?_, ?_, ?_⟩
        · intro rv2 hrv
          simp [fn, h] at hrv
          subst hrv
          rfl
        · intro t ht; simp at ht
        · intro t ht; simp at ht
        · intro r hr; simp at hr
        · intro r hr
          cases hr
          simp [fn, h]
      | rejected t0 =>
        refine ⟨by simp [fn, h, raises], ?_, ?_, ?_, ?_, ?_⟩
        · intro rv2 hrv
          simp [fn, h] at hrv
          subst hrv
          rfl
        · intro t ht; simp at ht
        · intro t ht
          cases ht
          simp [fn, h]
        · intro r hr; simp at hr
        · intro r hr; simp at hr

/-- Witness for claim C2 at a concrete throwing callable and a concrete
callable returning a rejected promise. -/
theorem claim2_fn_never_raises_witness :
    raises (fn (fun _ : Unit =>
      (JsCall.throws 7 : JsCall Nat (RetVal Nat Nat String))) ()) = false ∧
    fn (fun _ : Unit =>
        (JsCall.throws 7 : JsCall Nat (RetVal Nat Nat String))) () =
      JsCall.ret (RetVal.sync (Result.err (Sum.inr (mkUnhandledError 7)))) ∧
    fn (fun _ : Unit => (JsCall.ret (RetVal.async (AsyncComp.rejected 9)) :
        JsCall Nat (RetVal Nat Nat String))) () =
      JsCall.ret (RetVal.async (AsyncComp.resolved
        (Result.err (Sum.inr (mkUnhandledError 9))))) := by
  refine ⟨?_, ?_, ?_⟩
  · exact (claim2_fn_never_raises (fun _ : Unit =>
      (JsCall.throws 7 : JsCall Nat (RetVal Nat Nat String))) ()).1
  · exact (claim2_fn_never_raises (fun _ : Unit =>
      (JsCall.throws 7 : JsCall Nat (RetVal Nat Nat String))) ()).2.2.1
      7 rfl
  · exact (claim2_fn_never_raises (fun _ : Unit =>
      (JsCall.ret (RetVal.async (AsyncComp.rejected 9)) :
        JsCall Nat (RetVal Nat Nat String))) ()).2.2.2.1 9 rfl

end FX





